import Mathlib

/-!
Verification development for the Slack MCP orchestration service.

The embedding models the two source modules that the specified core lives in:

* `autonomous_agent.py` — the Tool Orchestration Engine: backend registry
  discovery (`_discover_servers` / `_test_server`), tool catalog construction
  (`discover_tools`), plan generation (`_create_plan`), plan execution
  (`execute_tool` and the step loop inside `execute`), and result synthesis
  (`_synthesize_results`).
* `main.py` — the Event Routing Front-End: the Socket Mode request handler
  (`handle_socket_mode_request`), mention handling (`_handle_app_mention`,
  `_clean_mention_text`) and keyword classification (`_analyze_query_type`).

Text is modelled as `List Char` so that every operation reduces in the
kernel.  Network calls and the text-completion service are modelled as
oracles (explicit function arguments): the embedded functions describe
exactly how the Python code reacts to each possible observable response.
Python dictionaries with optional keys are modelled as structures with
`Option`-typed fields (a `none` field stands for an absent key).
-/

/-- Text, modelled as a list of characters (Python `str`). -/
abbrev Str := List Char

/-- Lower-casing a string, character by character (Python `str.lower`). -/
def toLowerStr (s : Str) : Str := s.map Char.toLower

/-- Substring test: Python `pat in s`.  An empty pattern is contained in
every string, matching Python semantics. -/
def containsSub : Str → Str → Bool
  | [], pat => pat.isEmpty
  | c :: rest, pat => pat.isPrefixOf (c :: rest) || containsSub rest pat

/-- Fuel-driven worker for `removeAll`.  Fuel is consumed one unit per
examined character; the wrapper supplies `s.length` units, which always
suffices because every step removes at least one character from the
remaining input.  Matches are found left to right and are non-overlapping,
as in Python `str.replace`. -/
def removeAllFuel (pat : Str) : Nat → Str → Str
  | 0, s => s
  | _ + 1, [] => []
  | fuel + 1, c :: rest =>
    if pat ≠ [] ∧ pat.isPrefixOf (c :: rest) then
      removeAllFuel pat fuel ((c :: rest).drop pat.length)
    else
      c :: removeAllFuel pat fuel rest

/-- Remove every occurrence of `pat` from `s`: Python `s.replace(pat, "")`.
Both call sites in the source (`url.replace("/mcp", "")` and
`text.replace(f"<@{bot_user_id}>", "")`) replace with the empty string, so
only removal is modelled. -/
def removeAll (pat s : Str) : Str := removeAllFuel pat s.length s

/-- Strip leading and trailing whitespace: Python `str.strip()`. -/
def pyStrip (s : Str) : Str :=
  ((s.dropWhile Char.isWhitespace).reverse.dropWhile Char.isWhitespace).reverse

/-! ### Backend registry (`AutonomousAgent._discover_servers` / `_test_server`) -/

/-- One entry of the `servers` dictionary in `_discover_servers`: the
backend's tool endpoint and its free-text description. -/
structure ServerConfig where
  url : Str
  description : Str
deriving DecidableEq, Repr

/-- The agent's `available_servers` dictionary: backend name to its
configuration, in insertion order. -/
abbrev Registry := List (Str × ServerConfig)

/-- Dictionary lookup `self.available_servers[name]` / `name in dict`. -/
def lookupServer : Registry → Str → Option ServerConfig
  | [], _ => none
  | (n, cfg) :: rest, name => if n = name then some cfg else lookupServer rest name

/-- The hard-coded candidate backends of `_discover_servers`. -/
def candidateServers : Registry :=
  [("slack_mcp".data, ⟨"http://localhost:8001/mcp".data, "Slack workspace management".data⟩),
   ("tavily_mcp".data, ⟨"http://localhost:8002/mcp".data, "Web search and research".data⟩)]

/-- `AutonomousAgent._test_server`: HTTP GET to the url with the `/mcp`
path stripped, under a 2 second timeout.  The probe oracle returns
`some status` when the GET returns within the timeout with that status
code, and `none` when it times out or raises; the code treats any status
below 500 as live and any exception as dead. -/
def test_server (probe : Str → Option Nat) (url : Str) : Bool :=
  match probe (removeAll "/mcp".data url) with
  | some status => status < 500
  | none => false

/-- `AutonomousAgent._discover_servers`: keep exactly the candidates whose
liveness probe succeeds; a failed probe silently drops that backend and
never fails the overall discovery (the function is total and always
returns a registry). -/
def discover_servers (probe : Str → Option Nat) (servers : Registry) : Registry :=
  servers.filter (fun p => test_server probe p.2.url)

/-! ### Tool catalog (`AutonomousAgent.discover_tools`) -/

/-- One raw entry of the `result.tools` array of a `tools/list` response;
either key may be absent (`tool.get("name", "")` / `tool.get("description", "")`). -/
structure RawTool where
  name : Option Str
  description : Option Str
deriving DecidableEq, Repr

/-- Observable outcome of one `tools/list` POST.  `exn` covers a transport
error, a timeout, or a response body that fails to parse as JSON (all are
caught by the per-server `except` and skip the backend).  `http` carries the
status code and, when the parsed body has both a `result` key and a
`result.tools` array, that array. -/
inductive ListResp where
  | exn
  | http (status : Nat) (resultTools : Option (List RawTool))
deriving DecidableEq, Repr

/-- One catalog entry as built by `discover_tools`: name, description and
the owning backend's name. -/
structure ToolInfo where
  name : Str
  description : Str
  server : Str
deriving DecidableEq, Repr

/-- Trace events of the catalog build: issuing the `tools/list` request to
a backend, and that request completing (response received or error raised). -/
inductive DiscEv where
  | issue (server : Str)
  | complete (server : Str)
deriving DecidableEq, Repr

/-- Whether a `tools/list` response contributes a catalog entry:
status 200 and a parsed body carrying `result.tools`. -/
def listSucceeds : ListResp → Bool
  | .exn => false
  | .http status resultTools => status == 200 && resultTools.isSome

/-- The `result.tools` array carried by a `tools/list` response, empty
when the response carries none. -/
def toolsOf : ListResp → List RawTool
  | .http _ (some ts) => ts
  | _ => []

/-- The `for` loop of `discover_tools`, returning the built catalog
together with its request trace.  Each iteration awaits its own POST
before the next iteration starts, so each backend's `complete` event
precedes the next backend's `issue` event. -/
def discover_tools_aux (listResp : Str → ListResp) :
    Registry → List (Str × List ToolInfo) × List DiscEv
  | [] => ([], [])
  | (n, cfg) :: rest =>
    let tail := discover_tools_aux listResp rest
    let tr := DiscEv.issue n :: DiscEv.complete n :: tail.2
    match listResp cfg.url with
    | .exn => (tail.1, tr)
    | .http status resultTools =>
      if status = 200 then
        match resultTools with
        | some ts =>
          ((n, ts.map fun t => ⟨t.name.getD [], t.description.getD [], n⟩) :: tail.1, tr)
        | none => (tail.1, tr)
      else (tail.1, tr)

/-- `AutonomousAgent.discover_tools`: the catalog it returns (and stores in
`self.tool_registry`). -/
def discover_tools (listResp : Str → ListResp) (servers : Registry) :
    List (Str × List ToolInfo) :=
  (discover_tools_aux listResp servers).1

/-- The request trace of `discover_tools`. -/
def discover_tools_trace (listResp : Str → ListResp) (servers : Registry) : List DiscEv :=
  (discover_tools_aux listResp servers).2

/-- A trace has fan-out/fan-in shape when every request is issued before
any request completes (all `issue` events precede all `complete` events). -/
def fanOutJoin (tr : List DiscEv) : Bool :=
  tr = tr.filter (fun e => match e with | .issue _ => true | .complete _ => false)
      ++ tr.filter (fun e => match e with | .issue _ => false | .complete _ => true)

/-! ### Plan execution (`AutonomousAgent.execute_tool` and the step loop) -/

/-- Tool-call arguments: an opaque string-keyed mapping, passed through
unchanged to the backend. -/
abbrev Args := List (Str × Str)

/-- Observable outcome of one `tools/call` POST.  `exn msg` covers any
exception raised inside the `try` block (transport error, timeout, JSON
parse failure), whose text the code returns as the error; `http` carries
the status and, when the parsed body has `result` and `result.content`
keys, the `content` array with each item's optional `text` field. -/
inductive CallResp where
  | exn (msg : Str)
  | http (status : Nat) (resultContent : Option (List (Option Str)))
deriving DecidableEq, Repr

/-- One step outcome dictionary.  Each `Option` field stands for a key
that may be absent from the Python dictionary: the success branch sets
`result`, `server` and `tool`; every failure branch sets only `error`. -/
structure StepOutcome where
  success : Bool
  result : Option Str
  error : Option Str
  server : Option Str
  tool : Option Str
deriving DecidableEq, Repr

/-- `AutonomousAgent.execute_tool`.  A backend absent from
`available_servers` yields `{"success": False, "error": "Server <name> not
available"}` — note that this failure dictionary carries no `server` or
`tool` key.  Otherwise the call oracle is consulted: status 200 with
`result.content` present yields the success outcome echoing server and
tool; an empty `content` array raises `IndexError` (caught, its text
becoming the error); any other shape yields "Invalid response format". -/
def execute_tool (reg : Registry) (call : Str → Str → Args → CallResp)
    (server_name tool_name : Str) (args : Args) : StepOutcome :=
  match lookupServer reg server_name with
  | none =>
    ⟨false, none, some ("Server ".data ++ server_name ++ " not available".data), none, none⟩
  | some cfg =>
    match call cfg.url tool_name args with
    | .exn msg => ⟨false, none, some msg, none, none⟩
    | .http status resultContent =>
      if status = 200 then
        match resultContent with
        | some (item :: _) =>
          ⟨true, some (item.getD []), none, some server_name, some tool_name⟩
        | some [] => ⟨false, none, some "list index out of range".data, none, none⟩
        | none => ⟨false, none, some "Invalid response format".data, none, none⟩
      else ⟨false, none, some "Invalid response format".data, none, none⟩

/-- One plan step dictionary as consumed by the executor loop:
`step.get("action")`, `step.get("server")`, `step.get("tool")`,
`step.get("arguments", {})`. -/
structure PlanStep where
  action : Str
  server : Str
  tool : Str
  arguments : Args
deriving DecidableEq, Repr

/-- The step loop inside `AutonomousAgent.execute`: every step whose
`action` is `tool_execution` is run through `execute_tool` and its outcome
appended to `results`; a step of any other kind is skipped without
producing an outcome or an error. -/
def executeSteps (reg : Registry) (call : Str → Str → Args → CallResp) :
    List PlanStep → List StepOutcome
  | [] => []
  | step :: rest =>
    if step.action = "tool_execution".data then
      execute_tool reg call step.server step.tool step.arguments :: executeSteps reg call rest
    else
      executeSteps reg call rest

/-! ### Plan generation (`AutonomousAgent._create_plan`) -/

/-- The parsed plan dictionary.  `reasoning` and `steps` are its two
schema keys (each possibly absent); `extraKeys` counts any further keys the
completion service produced, which only matter for Python truthiness
(`if not plan`). -/
structure Plan where
  reasoning : Option Str
  steps : Option (List PlanStep)
  extraKeys : Nat
deriving DecidableEq, Repr

/-- Python truthiness of the plan dictionary: `not plan` holds exactly
when the dictionary is empty. -/
def Plan.isFalsy (p : Plan) : Bool :=
  p.reasoning.isNone && p.steps.isNone && p.extraKeys == 0

/-- Observable outcome of one chat-completion call: the call raised
(`failure`), or returned, with the first choice's message content possibly
`None`. -/
inductive CompletionResp where
  | failure (msg : Str)
  | success (content : Option Str)
deriving DecidableEq, Repr

/-- `AutonomousAgent._create_plan` after the prompt is built: the
completion call runs inside a `try` whose `except` returns `None`, and its
content (or `"{}"` when the content is `None`) is handed to `json.loads`.
The parse oracle models `json.loads`: `none` means the text is not valid
JSON, in which case the raised `ValueError` is caught and `None` is
returned. -/
def create_plan (resp : CompletionResp) (parse : Str → Option Plan) : Option Plan :=
  match resp with
  | .failure _ => none
  | .success content => parse (content.getD "\x7b\x7d".data)

/-! ### Result synthesis (`AutonomousAgent._synthesize_results`) -/

/-- `AutonomousAgent._synthesize_results` after the prompt is built.  A
completion failure is re-raised as `ResourceError("Synthesis failed: ...")`
— modelled as `Except.error` — with no fallback answer; a successful call
returns its content, or `"No synthesis available"` when the content is
`None`. -/
def synthesize_results (resp : CompletionResp) : Except Str Str :=
  match resp with
  | .failure e => .error ("Synthesis failed: ".data ++ e)
  | .success content => .ok (content.getD "No synthesis available".data)

/-! ### Orchestration driver (`AutonomousAgent.execute`) -/

/-- Invocations of the pipeline components observable from `execute`:
the plan-generation call, each per-step tool execution, and the synthesis
call. -/
inductive Effect where
  | planCall
  | toolCall (server tool : Str)
  | synthCall
deriving DecidableEq, Repr

/-- The `toolCall` effects of running the executor loop over a step list:
one per step of kind `tool_execution`, in order. -/
def stepEffects (steps : List PlanStep) : List Effect :=
  (steps.filter fun s => s.action = "tool_execution".data).map fun s =>
    Effect.toolCall s.server s.tool

/-- `AutonomousAgent.execute`.  A missing OpenAI client raises
`ResourceError` (modelled as `Except.error`).  Otherwise, inside the
driver's `try`: tools are discovered (only feeding the planning prompt,
absorbed here by the plan oracle), `_create_plan` runs; a `None` or empty
plan returns the fixed message `"❌ Could not create execution plan"`
without running the step loop or the synthesizer; otherwise the step loop
runs over `plan.get("steps", [])` and `_synthesize_results` is called on
the outcomes.  A `ResourceError` raised by synthesis is caught by the
driver's `except`, which returns `"❌ Execution error: <its text>"`.  The
second component of the result is the trace of component invocations. -/
def execute (hasOpenAI : Bool) (reg : Registry) (call : Str → Str → Args → CallResp)
    (planResp : CompletionResp) (parse : Str → Option Plan)
    (synthResp : List StepOutcome → CompletionResp) :
    Except Str (Str × List Effect) :=
  if hasOpenAI then
    match create_plan planResp parse with
    | none => .ok ("❌ Could not create execution plan".data, [.planCall])
    | some plan =>
      if plan.isFalsy then
        .ok ("❌ Could not create execution plan".data, [.planCall])
      else
        let steps := plan.steps.getD []
        let results := executeSteps reg call steps
        let effects := Effect.planCall :: stepEffects steps ++ [Effect.synthCall]
        match synthesize_results (synthResp results) with
        | .error e => .ok ("❌ Execution error: ".data ++ e, effects)
        | .ok answer => .ok (answer, effects)
  else
    .error "OpenAI client not configured".data

/-! ### Query classification (`SlackMCPServer._analyze_query_type`) -/

/-- The fixed search-intent keyword list of `_analyze_query_type`. -/
def search_keywords : List Str :=
  ["search".data, "find".data, "research".data, "news".data, "latest".data,
   "investigate".data]

/-- The fixed Slack structured-query keyword list of `_analyze_query_type`. -/
def slack_keywords : List Str :=
  ["channel".data, "message".data, "discuss".data, "slack".data, "who".data,
   "what".data]

/-- `SlackMCPServer._analyze_query_type`: lower-case the query, test the
search keywords first (any substring hit routes to `web_search`), then the
Slack keywords (any hit routes to `slack_query`), otherwise `general_chat`. -/
def analyze_query_type (query : Str) : Str :=
  let q := toLowerStr query
  if search_keywords.any (fun k => containsSub q k) then "web_search".data
  else if slack_keywords.any (fun k => containsSub q k) then "slack_query".data
  else "general_chat".data

/-! ### Event routing (`handle_socket_mode_request`, `_handle_app_mention`) -/

/-- The fields of an `app_mention` event dictionary that the router reads;
each may be absent. -/
structure SlackEvent where
  type : Option Str
  channel : Option Str
  user : Option Str
  text : Option Str
deriving DecidableEq, Repr

/-- One Socket Mode request: its envelope identifier, its request type and
the event carried by its payload (`req.payload.get("event", {})`; an absent
key behaves as an event with every field absent). -/
structure SocketReq where
  envelope_id : Str
  type : Str
  event : SlackEvent
deriving DecidableEq, Repr

/-- The router state the mention path reads: whether the Slack web client
was initialized, and the bot's own user id (set by `auth_test`, `None` when
authentication did not run). -/
structure BotState where
  hasSlackClient : Bool
  botUserId : Option Str
deriving DecidableEq, Repr

/-- Observable router events, in program order: the Socket Mode
acknowledgment keyed by the envelope id, the classification of a cleaned
mention text, the dispatch to the chosen handler, and each outbound
channel message a handler posts. -/
inductive RouterEv where
  | ack (envelopeId : Str)
  | classify (text : Str)
  | dispatch (queryType text channel : Str)
  | send (channel message : Str)
deriving DecidableEq, Repr

/-- `SlackMCPServer._clean_mention_text`: when the bot user id is known,
delete every `<@bot_user_id>` token and strip surrounding whitespace;
otherwise return the text unchanged. -/
def clean_mention_text (botUserId : Option Str) (text : Str) : Str :=
  match botUserId with
  | some bid => pyStrip (removeAll ("<@".data ++ bid ++ ">".data) text)
  | none => text

/-- `SlackMCPServer._route_and_process_query`: classify the query, then
run the matching processor.  The handler oracle gives, per query type, the
`(channel, message)` posts that processor performs (including the generic
error message its `except` branch would post); the trace records the
classification, the dispatch, and those posts. -/
def route_and_process_query (handlers : Str → Str → Str → List (Str × Str))
    (query channel : Str) : List RouterEv :=
  let qt := analyze_query_type query
  RouterEv.classify query :: RouterEv.dispatch qt query channel ::
    (handlers qt query channel).map fun p => RouterEv.send p.1 p.2

/-- `SlackMCPServer._handle_app_mention`.  `_validate_mention_event`
requires the Slack client plus `channel` and `user` keys; then the text is
cleaned, and `if not text or user == self.bot_user_id or not channel:
return` silently drops the event before any classification; otherwise the
query is routed. -/
def handle_app_mention (st : BotState) (handlers : Str → Str → Str → List (Str × Str))
    (event : SlackEvent) : List RouterEv :=
  if st.hasSlackClient && event.channel.isSome && event.user.isSome then
    let text := clean_mention_text st.botUserId (event.text.getD [])
    if text.isEmpty || event.user == st.botUserId || (event.channel.getD []).isEmpty then
      []
    else
      route_and_process_query handlers text (event.channel.getD [])
  else
    []

/-- The post-acknowledgment body of `handle_socket_mode_request`: only
`events_api` requests whose payload event has type `app_mention` reach the
mention handler; everything else is dropped. -/
def process_socket_event (st : BotState) (handlers : Str → Str → Str → List (Str × Str))
    (req : SocketReq) : List RouterEv :=
  if req.type = "events_api".data then
    if req.event.type = some "app_mention".data then
      handle_app_mention st handlers req.event
    else []
  else []

/-- `handle_socket_mode_request`: the acknowledgment for the request's
envelope id is sent first, before the request type is even inspected; the
rest of the processing follows. -/
def handle_socket_mode_request (st : BotState)
    (handlers : Str → Str → Str → List (Str × Str)) (req : SocketReq) : List RouterEv :=
  RouterEv.ack req.envelope_id :: process_socket_event st handlers req

/-! ## Helper lemmas -/

/-- Splitting a list by a predicate and its complement preserves length. -/
theorem length_filter_compl {α : Type} (p : α → Bool) (l : List α) :
    (l.filter p).length + (l.filter fun a => !p a).length = l.length := by
  induction l with
  | nil => rfl
  | cons a l ih =>
    by_cases h : p a = true <;>
      simp [List.filter_cons, h, Nat.succ_eq_add_one, ← ih] <;> omega

/-- The executor loop is the map of `execute_tool` over the
`tool_execution` steps. -/
theorem executeSteps_eq_filter_map (reg : Registry) (call : Str → Str → Args → CallResp)
    (steps : List PlanStep) :
    executeSteps reg call steps
      = ((steps.filter fun s => s.action = "tool_execution".data).map
          fun s => execute_tool reg call s.server s.tool s.arguments) := by
  induction steps with
  | nil => rfl
  | cons step rest ih =>
    by_cases h : step.action = "tool_execution".data <;>
      simp [executeSteps, List.filter_cons, h, ih]

/-- The catalog built by `discover_tools` keeps exactly the backends whose
`tools/list` call succeeded, in order, pairing each with its reported
tools. -/
theorem discover_tools_eq_filter_map (listResp : Str → ListResp) (servers : Registry) :
    discover_tools listResp servers
      = ((servers.filter fun p => listSucceeds (listResp p.2.url)).map
          fun p =>
            (p.1,
              (toolsOf (listResp p.2.url)).map
                fun t => ⟨t.name.getD [], t.description.getD [], p.1⟩)) := by
  induction servers with
  | nil => rfl
  | cons srv rest ih =>
    obtain ⟨n, cfg⟩ := srv
    simp only [discover_tools, discover_tools_aux, List.filter_cons] at *
    cases h : listResp cfg.url with
    | exn => simpa [listSucceeds, toolsOf, h] using ih
    | http status resultTools =>
      by_cases hs : status = 200
      · cases resultTools with
        | none => simpa [listSucceeds, toolsOf, h, hs] using ih
        | some ts => simpa [listSucceeds, toolsOf, h, hs] using ih
      · simpa [listSucceeds, toolsOf, h, hs] using ih

/-- The route trace never contains an acknowledgment event. -/
theorem route_no_ack (handlers : Str → Str → Str → List (Str × Str))
    (query channel : Str) :
    ∀ ev ∈ route_and_process_query handlers query channel,
      ∀ i, ev ≠ RouterEv.ack i := by
  intro ev hev i
  simp only [route_and_process_query, List.mem_cons, List.mem_map] at hev
  rcases hev with h | h | ⟨p, _, h⟩ <;> subst h <;> intro hc <;> cases hc

/-! ## Claims -/

/-- C1: a `tool_execution` step naming a backend absent from the registry
produces a failure outcome with error `"Server <backend> not available"`
that, per the claim, also echoes the step's backend and tool names.  The
code refutes the echo: `execute_tool`'s missing-backend branch returns a
dictionary with only `success` and `error` keys, so at the concrete input
of end-to-end scenario 2 (backend `tool_b`, empty registry) the outcome
carries no `server` or `tool` field. -/
theorem C1_counterexample :
    (execute_tool [] (fun _ _ _ => CallResp.exn []) "tool_b".data "echo".data []).error
        = some "Server tool_b not available".data
    ∧ ¬((execute_tool [] (fun _ _ _ => CallResp.exn []) "tool_b".data "echo".data []).server
          = some "tool_b".data
        ∧ (execute_tool [] (fun _ _ _ => CallResp.exn []) "tool_b".data "echo".data []).tool
          = some "echo".data) := by
  constructor
  · decide
  · decide

/-- C1 (amended): executing a `tool_execution` step whose backend is
absent from the registry yields the failure outcome with error message
`"Server <backend> not available"` and no other populated field (in
particular the outcome does not echo the step's backend or tool name), and
the executor continues with the remaining steps rather than aborting. -/
theorem C1_missing_backend (reg : Registry) (call : Str → Str → Args → CallResp)
    (backend tool : Str) (args : Args) (rest : List PlanStep)
    (h : lookupServer reg backend = none) :
    executeSteps reg call (⟨"tool_execution".data, backend, tool, args⟩ :: rest)
      = ⟨false, none, some ("Server ".data ++ backend ++ " not available".data),
          none, none⟩ :: executeSteps reg call rest := by
  simp [executeSteps, execute_tool, h]

/-- Witness for C1: with an empty registry, a two-step plan naming
`tool_b` then another missing backend produces the `tool_b` failure
outcome first and still executes the second step. -/
theorem C1_missing_backend_witness :
    executeSteps [] (fun _ _ _ => CallResp.exn [])
        [⟨"tool_execution".data, "tool_b".data, "echo".data, []⟩,
         ⟨"tool_execution".data, "tool_c".data, "echo".data, []⟩]
      = ⟨false, none, some ("Server ".data ++ "tool_b".data ++ " not available".data),
          none, none⟩
        :: executeSteps [] (fun _ _ _ => CallResp.exn [])
            [⟨"tool_execution".data, "tool_c".data, "echo".data, []⟩] :=
  C1_missing_backend [] (fun _ _ _ => CallResp.exn []) "tool_b".data "echo".data []
    [⟨"tool_execution".data, "tool_c".data, "echo".data, []⟩] rfl

/-- C2: the executor's outcome sequence is exactly the map of
`execute_tool` over the plan's `tool_execution` steps — hence one outcome
per `tool_execution` step, in the same relative order — and steps of any
other kind contribute nothing. -/
theorem C2_outcome_alignment (reg : Registry) (call : Str → Str → Args → CallResp)
    (steps : List PlanStep) :
    executeSteps reg call steps
      = ((steps.filter fun s => s.action = "tool_execution".data).map
          fun s => execute_tool reg call s.server s.tool s.arguments)
    ∧ (executeSteps reg call steps).length
      = (steps.filter fun s => s.action = "tool_execution".data).length := by
  refine ⟨executeSteps_eq_filter_map reg call steps, ?_⟩
  rw [executeSteps_eq_filter_map reg call steps, List.length_map]

/-- C3: a completion-service failure makes `_create_plan` return `None`
(a non-JSON response body behaves the same, since the parse oracle maps it
to `none`); whenever the generated plan is `None`, the driver returns the
fixed "could not create execution plan" message and its invocation trace
holds only the planning call — the step executor and the synthesizer are
never invoked. -/
theorem C3_plan_failure (reg : Registry) (call : Str → Str → Args → CallResp)
    (parse : Str → Option Plan) (e : Str) (planResp : CompletionResp)
    (synthResp : List StepOutcome → CompletionResp)
    (h : create_plan planResp parse = none) :
    create_plan (CompletionResp.failure e) parse = none
    ∧ execute true reg call planResp parse synthResp
        = Except.ok ("❌ Could not create execution plan".data, [Effect.planCall])
    ∧ ∀ fx, execute true reg call planResp parse synthResp = Except.ok fx →
        (∀ s t, Effect.toolCall s t ∉ fx.2) ∧ Effect.synthCall ∉ fx.2 := by
  have h2 : execute true reg call planResp parse synthResp
      = Except.ok ("❌ Could not create execution plan".data, [Effect.planCall]) := by
    simp [execute, h]
  refine ⟨rfl, h2, ?_⟩
  intro fx hfx
  rw [h2] at hfx
  injection hfx with h3
  subst h3
  constructor
  · intro s t hmem
    simp at hmem
  · simp

/-- Witness for C3: with a failing completion service and a parse oracle
that rejects everything, the generator returns `None` and the driver
returns the fixed message with a planning-only trace. -/
theorem C3_plan_failure_witness :
    create_plan (CompletionResp.failure "service down".data) (fun _ => none) = none
    ∧ execute true [] (fun _ _ _ => CallResp.exn [])
        (CompletionResp.failure "service down".data) (fun _ => none)
        (fun _ => CompletionResp.success none)
      = Except.ok ("❌ Could not create execution plan".data, [Effect.planCall]) :=
  ⟨(C3_plan_failure [] (fun _ _ _ => CallResp.exn []) (fun _ => none) "service down".data
      (CompletionResp.failure "service down".data) (fun _ => CompletionResp.success none)
      rfl).1,
   (C3_plan_failure [] (fun _ _ _ => CallResp.exn []) (fun _ => none) "service down".data
      (CompletionResp.failure "service down".data) (fun _ => CompletionResp.success none)
      rfl).2.1⟩

/-- C4: for every inbound Socket Mode request, the trace starts with the
acknowledgment keyed by the request's envelope identifier, and the entire
remainder of the processing (event filtering, classification, dispatch,
outbound messages) contains no acknowledgment — so the acknowledgment is
observed before any classification or dispatch logic executes. -/
theorem C4_ack_before_processing (st : BotState)
    (handlers : Str → Str → Str → List (Str × Str)) (req : SocketReq) :
    handle_socket_mode_request st handlers req
      = RouterEv.ack req.envelope_id :: process_socket_event st handlers req
    ∧ ∀ ev ∈ process_socket_event st handlers req, ∀ i, ev ≠ RouterEv.ack i := by
  refine ⟨rfl, ?_⟩
  intro ev hev
  simp only [process_socket_event] at hev
  split at hev
  · split at hev
    · simp only [handle_app_mention] at hev
      split at hev
      · split at hev
        · simp at hev
        · exact route_no_ack handlers _ _ ev hev
      · simp at hev
    · simp at hev
  · simp at hev

/-- Witness for C4: a concrete `events_api` mention request is
acknowledged first, and nothing in the rest of its trace is an
acknowledgment. -/
theorem C4_ack_before_processing_witness :
    handle_socket_mode_request ⟨true, some "UB".data⟩
        (fun _ _ c => [(c, "reply".data)])
        ⟨"env-1".data, "events_api".data,
          ⟨some "app_mention".data, some "C1".data, some "U2".data,
            some "search cats".data⟩⟩
      = RouterEv.ack "env-1".data
        :: process_socket_event ⟨true, some "UB".data⟩ (fun _ _ c => [(c, "reply".data)])
            ⟨"env-1".data, "events_api".data,
              ⟨some "app_mention".data, some "C1".data, some "U2".data,
                some "search cats".data⟩⟩
    ∧ ∀ ev ∈ process_socket_event ⟨true, some "UB".data⟩ (fun _ _ c => [(c, "reply".data)])
          ⟨"env-1".data, "events_api".data,
            ⟨some "app_mention".data, some "C1".data, some "U2".data,
              some "search cats".data⟩⟩,
        ∀ i, ev ≠ RouterEv.ack i :=
  C4_ack_before_processing ⟨true, some "UB".data⟩ (fun _ _ c => [(c, "reply".data)])
    ⟨"env-1".data, "events_api".data,
      ⟨some "app_mention".data, some "C1".data, some "U2".data, some "search cats".data⟩⟩

/-- C5: classification lower-cases the query and tests the search-intent
keyword list before the Slack structured-query keyword list: any search
keyword hit routes to `web_search` regardless of Slack keyword hits, Slack
keyword hits matter only when no search keyword matches, and a query
matching neither list routes to `general_chat`. -/
theorem C5_keyword_priority (query : Str) :
    ((search_keywords.any fun k => containsSub (toLowerStr query) k) = true →
        analyze_query_type query = "web_search".data)
    ∧ ((search_keywords.any fun k => containsSub (toLowerStr query) k) = false →
        (slack_keywords.any fun k => containsSub (toLowerStr query) k) = true →
        analyze_query_type query = "slack_query".data)
    ∧ ((search_keywords.any fun k => containsSub (toLowerStr query) k) = false →
        (slack_keywords.any fun k => containsSub (toLowerStr query) k) = false →
        analyze_query_type query = "general_chat".data) := by
  unfold analyze_query_type
  exact ⟨fun h => by simp [h], fun h1 h2 => by simp [h1, h2], fun h1 h2 => by simp [h1, h2]⟩

/-- Witness for C5: the spec's example query contains keywords from both
lists (`search` from the search list; `channel`, `discuss` and `what` from
the Slack list) and routes to the web-search path. -/
theorem C5_keyword_priority_witness :
    (slack_keywords.any fun k =>
        containsSub (toLowerStr "Search the #general channel discussion".data) k) = true
    ∧ analyze_query_type "Search the #general channel discussion".data = "web_search".data :=
  ⟨by decide,
   (C5_keyword_priority "Search the #general channel discussion".data).1 (by decide)⟩

/-- C6: the catalog lists exactly the backends whose `tools/list` call
succeeded, in registry order; with `N` live backends of which `K` fail,
the catalog has `N − K` entries, and the build itself is a total function
that never fails as a whole. -/
theorem C6_partial_catalog (listResp : Str → ListResp) (servers : Registry) :
    (discover_tools listResp servers).map Prod.fst
      = ((servers.filter fun p => listSucceeds (listResp p.2.url)).map Prod.fst)
    ∧ (discover_tools listResp servers).length
      = servers.length - (servers.filter fun p => !listSucceeds (listResp p.2.url)).length := by
  have h := discover_tools_eq_filter_map listResp servers
  constructor
  · rw [h, List.map_map]
    rfl
  · rw [h, List.length_map]
    have hc := length_filter_compl (fun p => listSucceeds (listResp p.2.url)) servers
    omega

/-- C7: the claim states that the `tools/list` discovery calls of one run
are issued in parallel, one concurrent task per backend, joined before
planning.  The code's loop awaits each call before issuing the next: with
the two hard-coded candidate backends (every call failing, though any
responses give the same shape), the observable trace interleaves each
backend's completion before the next backend's issue, so it does not have
the fan-out/fan-in shape the claim requires. -/
theorem C7_counterexample :
    discover_tools_trace (fun _ => ListResp.exn) candidateServers
      = [DiscEv.issue "slack_mcp".data, DiscEv.complete "slack_mcp".data,
         DiscEv.issue "tavily_mcp".data, DiscEv.complete "tavily_mcp".data]
    ∧ fanOutJoin (discover_tools_trace (fun _ => ListResp.exn) candidateServers) = false := by
  constructor
  · decide
  · decide

/-- C7 (amended): during a single run the `tools/list` discovery calls are
issued sequentially — for each backend in registry order, the call is
issued and awaited to completion before the next backend's call is issued
— rather than as parallel tasks joined before planning. -/
theorem C7_sequential_discovery (listResp : Str → ListResp) (servers : Registry) :
    discover_tools_trace listResp servers
      = servers.flatMap fun p => [DiscEv.issue p.1, DiscEv.complete p.1] := by
  induction servers with
  | nil => rfl
  | cons srv rest ih =>
    obtain ⟨n, cfg⟩ := srv
    simp only [discover_tools_trace, discover_tools_aux] at *
    cases h : listResp cfg.url with
    | exn => simp [h, ih]
    | http status resultTools =>
      by_cases hs : status = 200
      · cases resultTools with
        | none => simp [h, hs, ih]
        | some ts => simp [h, hs, ih]
      · simp [h, hs, ih]

/-- C8: a candidate backend is included in the registry iff its liveness
probe — an HTTP GET against the url with the `/mcp` path stripped — returns
within the timeout with a status below 500; probes that time out, raise, or
return 500+ exclude only that backend, and discovery itself always returns
a registry. -/
theorem C8_liveness_inclusion (probe : Str → Option Nat) (servers : Registry)
    (name : Str) (cfg : ServerConfig) (h : (name, cfg) ∈ servers) :
    (name, cfg) ∈ discover_servers probe servers
      ↔ ∃ status, probe (removeAll "/mcp".data cfg.url) = some status ∧ status < 500 := by
  unfold discover_servers
  rw [List.mem_filter]
  unfold test_server
  cases hp : probe (removeAll "/mcp".data cfg.url) with
  | none => simp [h, hp]
  | some status => simp [h, hp]

/-- Witness for C8: with a probe that always answers 200, the first
hard-coded candidate is included in the discovered registry. -/
theorem C8_liveness_inclusion_witness :
    (("slack_mcp".data,
        (⟨"http://localhost:8001/mcp".data, "Slack workspace management".data⟩ :
          ServerConfig))
      ∈ discover_servers (fun _ => some 200) candidateServers)
    ↔ ∃ status, (fun _ : Str => some 200) (removeAll "/mcp".data
          "http://localhost:8001/mcp".data) = some status ∧ status < 500 :=
  C8_liveness_inclusion (fun _ => some 200) candidateServers "slack_mcp".data
    ⟨"http://localhost:8001/mcp".data, "Slack workspace management".data⟩ (by decide)

/-- C9: a completion failure during synthesis is raised as
`ResourceError("Synthesis failed: ...")` — the synthesizer returns no
degraded or fallback answer — and the raised error propagates to its
caller `execute`, whose boundary handler surfaces it verbatim in the
returned "Execution error" message instead of masking it. -/
theorem C9_synthesis_failure (reg : Registry) (call : Str → Str → Args → CallResp)
    (planResp : CompletionResp) (parse : Str → Option Plan) (plan : Plan) (e : Str)
    (hplan : create_plan planResp parse = some plan) (hne : plan.isFalsy = false) :
    synthesize_results (CompletionResp.failure e)
        = Except.error ("Synthesis failed: ".data ++ e)
    ∧ execute true reg call planResp parse (fun _ => CompletionResp.failure e)
        = Except.ok ("❌ Execution error: ".data ++ ("Synthesis failed: ".data ++ e),
            Effect.planCall :: (stepEffects (plan.steps.getD []) ++ [Effect.synthCall])) := by
  constructor
  · rfl
  · simp [execute, hplan, hne, synthesize_results]

/-- Witness for C9: a concrete non-empty plan with no steps and a failing
synthesis call yield the raised synthesis error, surfaced by the driver. -/
theorem C9_synthesis_failure_witness :
    synthesize_results (CompletionResp.failure "rate limited".data)
        = Except.error ("Synthesis failed: ".data ++ "rate limited".data)
    ∧ execute true [] (fun _ _ _ => CallResp.exn [])
        (CompletionResp.success (some "p".data))
        (fun _ => some ⟨none, some [], 0⟩)
        (fun _ => CompletionResp.failure "rate limited".data)
      = Except.ok
          ("❌ Execution error: ".data ++ ("Synthesis failed: ".data ++ "rate limited".data),
            Effect.planCall
              :: (stepEffects ((Plan.mk none (some []) 0).steps.getD [])
                  ++ [Effect.synthCall])) :=
  C9_synthesis_failure [] (fun _ _ _ => CallResp.exn [])
    (CompletionResp.success (some "p".data)) (fun _ => some ⟨none, some [], 0⟩)
    ⟨none, some [], 0⟩ "rate limited".data rfl rfl

/-- C10: a mention event whose originator is the bot itself, or whose text
is empty once the bot-mention token is stripped, is dropped before
classification: the mention handler emits no classification, no dispatch
and no outbound message. -/
theorem C10_silent_drop (st : BotState) (handlers : Str → Str → Str → List (Str × Str))
    (event : SlackEvent)
    (h : event.user = st.botUserId
        ∨ clean_mention_text st.botUserId (event.text.getD []) = []) :
    handle_app_mention st handlers event = [] := by
  unfold handle_app_mention
  split
  · rcases h with h | h
    · simp [h]
    · simp [h]
  · rfl

/-- Witness for C10: a mention sent by the bot's own user id produces an
empty trace. -/
theorem C10_silent_drop_witness :
    handle_app_mention ⟨true, some "UBOT".data⟩ (fun _ _ c => [(c, "reply".data)])
        ⟨some "app_mention".data, some "C1".data, some "UBOT".data,
          some "search cats".data⟩
      = [] :=
  C10_silent_drop ⟨true, some "UBOT".data⟩ (fun _ _ c => [(c, "reply".data)])
    ⟨some "app_mention".data, some "C1".data, some "UBOT".data, some "search cats".data⟩
    (Or.inl rfl)
